import Mathlib

/-!
Verification of the dom-game-math transform subsystem (a TypeScript wrapper
over gl-matrix).  The TypeScript code computes with IEEE doubles; this
development idealizes number arithmetic as real arithmetic, which is the
standard shallow embedding for numeric specification claims.  Mutation of
"out" parameters is embedded by value passing: every operation returns the
value the source writes into its output argument.  Functions of the external
gl-matrix library (mat4.multiply, mat4.fromQuat, mat4.getRotation,
mat4.getScaling, quat.slerp, mat4.perspective, mat4.lookAt, mat2d ops, ...)
are transliterated from the gl-matrix v3 sources that the repository calls
into; names carry a gl prefix.  Repository functions carry their source
names (mat4compose for mat4.compose, and so on).
-/

/-- A 3D vector as in Vector3.ts: a record of three numbers. -/
@[ext] structure Vec3 where
  x : ℝ
  y : ℝ
  z : ℝ

/-- A 2D vector as in Vector2.ts. -/
@[ext] structure Vec2 where
  x : ℝ
  y : ℝ

/-- A quaternion as in Quaternion.ts: a record of four numbers (x, y, z, w). -/
@[ext] structure Quat where
  x : ℝ
  y : ℝ
  z : ℝ
  w : ℝ

/-- A 4x4 matrix in gl-matrix column-major layout: entry mI is index I of the
flat 16-element array, so columns are (m0 m1 m2 m3), (m4 m5 m6 m7),
(m8 m9 m10 m11), (m12 m13 m14 m15); m12..m14 is the translation column. -/
@[ext] structure M4 where
  m0 : ℝ
  m1 : ℝ
  m2 : ℝ
  m3 : ℝ
  m4 : ℝ
  m5 : ℝ
  m6 : ℝ
  m7 : ℝ
  m8 : ℝ
  m9 : ℝ
  m10 : ℝ
  m11 : ℝ
  m12 : ℝ
  m13 : ℝ
  m14 : ℝ
  m15 : ℝ

/-- A 2D affine matrix in gl-matrix mat2d layout: flat array
(m0 m1 m2 m3 m4 m5) where (m0 m1) and (m2 m3) are the two linear columns and
(m4 m5) is the translation. -/
@[ext] structure M23 where
  m0 : ℝ
  m1 : ℝ
  m2 : ℝ
  m3 : ℝ
  m4 : ℝ
  m5 : ℝ

/-- The six transform-order values of Matrix4.ts (string literal union
TRS | RTS | STR | SRT | RST | TSR). -/
inductive TransformOrder where
  | TRS | RTS | STR | SRT | RST | TSR
deriving DecidableEq

/-- A fully populated Transform3D record of Matrix4.ts. -/
structure Transform3D where
  translation : Vec3
  rotation : Quat
  scale : Vec3
  order : TransformOrder

/-- A possibly-partial Transform3D (Partial of the TS type): every field may
be absent, mirroring the optional fields mat4.compose patches in place. -/
structure Transform3DPatch where
  translation : Option Vec3
  rotation : Option Quat
  scale : Option Vec3
  order : Option TransformOrder

-- ------------------------- shared frozen constants -------------------------

/-- vec3.zero. -/
def vec3zero : Vec3 := ⟨0, 0, 0⟩

/-- vec3.one. -/
def vec3one : Vec3 := ⟨1, 1, 1⟩

/-- vec3.up (0, 1, 0). -/
def vec3up : Vec3 := ⟨0, 1, 0⟩

/-- vec3.forward (0, 0, 1): the library's forward convention is positive z. -/
def vec3forward : Vec3 := ⟨0, 0, 1⟩

/-- quat.idt, the identity quaternion (0, 0, 0, 1). -/
def quatIdt : Quat := ⟨0, 0, 0, 1⟩

/-- mat4.idt, the identity matrix (gl-matrix create()). -/
def mat4idt : M4 := ⟨1, 0, 0, 0, 0, 1, 0, 0, 0, 0, 1, 0, 0, 0, 0, 1⟩

/-- mat2x3.idt (gl-matrix mat2d create()). -/
def mat2x3idt : M23 := ⟨1, 0, 0, 1, 0, 0⟩

/-- glMatrix.EPSILON, the tolerance constant of the gl-matrix library. -/
def glEPS : ℝ := 0.000001

-- ------------------------------ scalar helpers -----------------------------

/-- common.ts lerp: a + (b - a) * alpha. -/
def lerpS (a b alpha : ℝ) : ℝ := a + (b - a) * alpha

/-- common.ts isNearlyEqual: Math.abs(a - b) < tolerance. -/
def isNearlyEqual (a b tolerance : ℝ) : Prop := |a - b| < tolerance

-- ------------------------------- vec3 helpers ------------------------------

/-- vec3.add (vector overload). -/
def vec3add (a b : Vec3) : Vec3 := ⟨a.x + b.x, a.y + b.y, a.z + b.z⟩

/-- vec3.negate. -/
def vec3negate (v : Vec3) : Vec3 := ⟨-v.x, -v.y, -v.z⟩

/-- vec3.div (vector overload): component-wise division. -/
noncomputable def vec3div (a b : Vec3) : Vec3 := ⟨a.x / b.x, a.y / b.y, a.z / b.z⟩

/-- vec3.normalize: zero-length input returns the zero vector, otherwise the
components are scaled by the inverse length. -/
noncomputable def vec3normalize (v : Vec3) : Vec3 :=
  let len := Real.sqrt (v.x * v.x + v.y * v.y + v.z * v.z)
  if len = 0 then ⟨0, 0, 0⟩ else ⟨v.x * (1 / len), v.y * (1 / len), v.z * (1 / len)⟩

/-- vec3.lerp (scalar alpha overload): component-wise common.ts lerp. -/
def vec3lerp (a b : Vec3) (alpha : ℝ) : Vec3 :=
  ⟨lerpS a.x b.x alpha, lerpS a.y b.y alpha, lerpS a.z b.z alpha⟩

/-- vec3.equals: component-wise isNearlyEqual at a tolerance. -/
def vec3equalsTol (a b : Vec3) (tolerance : ℝ) : Prop :=
  isNearlyEqual a.x b.x tolerance ∧ isNearlyEqual a.y b.y tolerance ∧
    isNearlyEqual a.z b.z tolerance

/-- gl-matrix vec3.transformQuat, used by vec3.rotate: rotates v by q via
uv = cross(q.xyz, v), uuv = cross(q.xyz, uv), result v + 2*w*uv + 2*uuv. -/
def vec3rotate (v : Vec3) (q : Quat) : Vec3 :=
  let uvx := q.y * v.z - q.z * v.y
  let uvy := q.z * v.x - q.x * v.z
  let uvz := q.x * v.y - q.y * v.x
  let uuvx := q.y * uvz - q.z * uvy
  let uuvy := q.z * uvx - q.x * uvz
  let uuvz := q.x * uvy - q.y * uvx
  ⟨v.x + uvx * (q.w * 2) + uuvx * 2,
   v.y + uvy * (q.w * 2) + uuvy * 2,
   v.z + uvz * (q.w * 2) + uuvz * 2⟩

/-- gl-matrix vec3.transformMat4, used by vec3.transform: applies the full
homogeneous transform and divides by w, where a zero w is replaced by 1
(the JavaScript w = w or 1 idiom). -/
noncomputable def vec3transformM4 (v : Vec3) (m : M4) : Vec3 :=
  let w0 := m.m3 * v.x + m.m7 * v.y + m.m11 * v.z + m.m15
  let w := if w0 = 0 then 1 else w0
  ⟨(m.m0 * v.x + m.m4 * v.y + m.m8 * v.z + m.m12) / w,
   (m.m1 * v.x + m.m5 * v.y + m.m9 * v.z + m.m13) / w,
   (m.m2 * v.x + m.m6 * v.y + m.m10 * v.z + m.m14) / w⟩

-- ------------------------------- quat helpers ------------------------------

/-- Quaternion negation (the other representative of the same rotation). -/
def Quat.neg (q : Quat) : Quat := ⟨-q.x, -q.y, -q.z, -q.w⟩

/-- vec4.normalize, which is also quat.normalize: zero length returns the
input unchanged, otherwise components are multiplied by the inverse length. -/
noncomputable def vec4normalize (v : Quat) : Quat :=
  let len := Real.sqrt (v.x * v.x + v.y * v.y + v.z * v.z + v.w * v.w)
  if len = 0 then v
  else ⟨v.x * (1 / len), v.y * (1 / len), v.z * (1 / len), v.w * (1 / len)⟩

/-- quat.equals = vec4.equals: component-wise isNearlyEqual at a tolerance. -/
def quatEqualsTol (a b : Quat) (tolerance : ℝ) : Prop :=
  isNearlyEqual a.x b.x tolerance ∧ isNearlyEqual a.y b.y tolerance ∧
    isNearlyEqual a.z b.z tolerance ∧ isNearlyEqual a.w b.w tolerance

/-- gl-matrix quat.slerp, used by quat.slerp of Quaternion.ts: shortest-arc
spherical interpolation, flipping b when the dot product is negative and
falling back to linear blending when the rotations are nearly identical. -/
noncomputable def quatSlerp (a b : Quat) (t : ℝ) : Quat :=
  let cosom0 := a.x * b.x + a.y * b.y + a.z * b.z + a.w * b.w
  let bx := if cosom0 < 0 then -b.x else b.x
  let by' := if cosom0 < 0 then -b.y else b.y
  let bz := if cosom0 < 0 then -b.z else b.z
  let bw := if cosom0 < 0 then -b.w else b.w
  let cosom := if cosom0 < 0 then -cosom0 else cosom0
  let scale0 :=
    if glEPS < 1 - cosom then
      Real.sin ((1 - t) * Real.arccos cosom) / Real.sin (Real.arccos cosom)
    else 1 - t
  let scale1 :=
    if glEPS < 1 - cosom then
      Real.sin (t * Real.arccos cosom) / Real.sin (Real.arccos cosom)
    else t
  ⟨scale0 * a.x + scale1 * bx, scale0 * a.y + scale1 * by',
   scale0 * a.z + scale1 * bz, scale0 * a.w + scale1 * bw⟩

-- ----------------------- gl-matrix mat4 primitives -------------------------

/-- gl-matrix mat4.multiply: out = a * b in column-major layout. -/
def glMul (a b : M4) : M4 :=
  ⟨b.m0 * a.m0 + b.m1 * a.m4 + b.m2 * a.m8 + b.m3 * a.m12,
   b.m0 * a.m1 + b.m1 * a.m5 + b.m2 * a.m9 + b.m3 * a.m13,
   b.m0 * a.m2 + b.m1 * a.m6 + b.m2 * a.m10 + b.m3 * a.m14,
   b.m0 * a.m3 + b.m1 * a.m7 + b.m2 * a.m11 + b.m3 * a.m15,
   b.m4 * a.m0 + b.m5 * a.m4 + b.m6 * a.m8 + b.m7 * a.m12,
   b.m4 * a.m1 + b.m5 * a.m5 + b.m6 * a.m9 + b.m7 * a.m13,
   b.m4 * a.m2 + b.m5 * a.m6 + b.m6 * a.m10 + b.m7 * a.m14,
   b.m4 * a.m3 + b.m5 * a.m7 + b.m6 * a.m11 + b.m7 * a.m15,
   b.m8 * a.m0 + b.m9 * a.m4 + b.m10 * a.m8 + b.m11 * a.m12,
   b.m8 * a.m1 + b.m9 * a.m5 + b.m10 * a.m9 + b.m11 * a.m13,
   b.m8 * a.m2 + b.m9 * a.m6 + b.m10 * a.m10 + b.m11 * a.m14,
   b.m8 * a.m3 + b.m9 * a.m7 + b.m10 * a.m11 + b.m11 * a.m15,
   b.m12 * a.m0 + b.m13 * a.m4 + b.m14 * a.m8 + b.m15 * a.m12,
   b.m12 * a.m1 + b.m13 * a.m5 + b.m14 * a.m9 + b.m15 * a.m13,
   b.m12 * a.m2 + b.m13 * a.m6 + b.m14 * a.m10 + b.m15 * a.m14,
   b.m12 * a.m3 + b.m13 * a.m7 + b.m14 * a.m11 + b.m15 * a.m15⟩

/-- gl-matrix mat4.fromTranslation. -/
def glFromTranslation (v : Vec3) : M4 :=
  ⟨1, 0, 0, 0, 0, 1, 0, 0, 0, 0, 1, 0, v.x, v.y, v.z, 1⟩

/-- gl-matrix mat4.fromScaling. -/
def glFromScaling (v : Vec3) : M4 :=
  ⟨v.x, 0, 0, 0, 0, v.y, 0, 0, 0, 0, v.z, 0, 0, 0, 0, 1⟩

/-- gl-matrix mat4.fromQuat: the rotation matrix of a quaternion (the gl
source computes with doubled products x2 = x + x and so on). -/
def glFromQuat (q : Quat) : M4 :=
  ⟨1 - q.y * (q.y + q.y) - q.z * (q.z + q.z),
   q.y * (q.x + q.x) + q.w * (q.z + q.z),
   q.z * (q.x + q.x) - q.w * (q.y + q.y),
   0,
   q.y * (q.x + q.x) - q.w * (q.z + q.z),
   1 - q.x * (q.x + q.x) - q.z * (q.z + q.z),
   q.z * (q.y + q.y) + q.w * (q.x + q.x),
   0,
   q.z * (q.x + q.x) + q.w * (q.y + q.y),
   q.z * (q.y + q.y) - q.w * (q.x + q.x),
   1 - q.x * (q.x + q.x) - q.y * (q.y + q.y),
   0, 0, 0, 0, 1⟩

/-- gl-matrix mat4.translate: out = m * translationMatrix(v); only the last
column changes. -/
def glTranslate (m : M4) (v : Vec3) : M4 :=
  { m with
    m12 := m.m0 * v.x + m.m4 * v.y + m.m8 * v.z + m.m12
    m13 := m.m1 * v.x + m.m5 * v.y + m.m9 * v.z + m.m13
    m14 := m.m2 * v.x + m.m6 * v.y + m.m10 * v.z + m.m14
    m15 := m.m3 * v.x + m.m7 * v.y + m.m11 * v.z + m.m15 }

/-- gl-matrix mat4.scale: scales the three linear columns of m by the
components of v. -/
def glScale (m : M4) (v : Vec3) : M4 :=
  ⟨m.m0 * v.x, m.m1 * v.x, m.m2 * v.x, m.m3 * v.x,
   m.m4 * v.y, m.m5 * v.y, m.m6 * v.y, m.m7 * v.y,
   m.m8 * v.z, m.m9 * v.z, m.m10 * v.z, m.m11 * v.z,
   m.m12, m.m13, m.m14, m.m15⟩

/-- gl-matrix mat4.getScaling: the euclidean norms of the three linear
columns. -/
noncomputable def glGetScaling (m : M4) : Vec3 :=
  ⟨Real.sqrt (m.m0 * m.m0 + m.m1 * m.m1 + m.m2 * m.m2),
   Real.sqrt (m.m4 * m.m4 + m.m5 * m.m5 + m.m6 * m.m6),
   Real.sqrt (m.m8 * m.m8 + m.m9 * m.m9 + m.m10 * m.m10)⟩

/-- gl-matrix mat4.getRotation: normalizes the three linear columns by the
getScaling values, then extracts a quaternion by the trace-based Shepperd
branch algorithm. -/
noncomputable def glGetRotationRaw (m : M4) : Quat :=
  let sc := glGetScaling m
  let is1 := 1 / sc.x
  let is2 := 1 / sc.y
  let is3 := 1 / sc.z
  let sm11 := m.m0 * is1
  let sm12 := m.m1 * is2
  let sm13 := m.m2 * is3
  let sm21 := m.m4 * is1
  let sm22 := m.m5 * is2
  let sm23 := m.m6 * is3
  let sm31 := m.m8 * is1
  let sm32 := m.m9 * is2
  let sm33 := m.m10 * is3
  let trace := sm11 + sm22 + sm33
  if 0 < trace then
    let S := Real.sqrt (trace + 1) * 2
    ⟨(sm23 - sm32) / S, (sm31 - sm13) / S, (sm12 - sm21) / S, 0.25 * S⟩
  else if sm22 < sm11 ∧ sm33 < sm11 then
    let S := Real.sqrt (1 + sm11 - sm22 - sm33) * 2
    ⟨0.25 * S, (sm12 + sm21) / S, (sm31 + sm13) / S, (sm23 - sm32) / S⟩
  else if sm33 < sm22 then
    let S := Real.sqrt (1 + sm22 - sm11 - sm33) * 2
    ⟨(sm12 + sm21) / S, 0.25 * S, (sm23 + sm32) / S, (sm31 - sm13) / S⟩
  else
    let S := Real.sqrt (1 + sm33 - sm11 - sm22) * 2
    ⟨(sm31 + sm13) / S, (sm23 + sm32) / S, 0.25 * S, (sm12 - sm21) / S⟩

/-- gl-matrix mat4.perspective with a finite far plane (the far = Infinity
special case of the gl source has no real-number counterpart; all uses in
the claims pass finite far). fovy is in radians here; the repository wrapper
converts from degrees. -/
noncomputable def glPerspective (fovy aspect near far : ℝ) : M4 :=
  let f := 1 / Real.tan (fovy / 2)
  let nf := 1 / (near - far)
  ⟨f / aspect, 0, 0, 0,
   0, f, 0, 0,
   0, 0, (far + near) * nf, -1,
   0, 0, 2 * far * near * nf, 0⟩

/-- gl-matrix mat4.lookAt: right-handed view matrix with the gl source's
epsilon early-out (eye nearly equal to center returns the identity) and the
zero-length guards on the x and y axes. -/
noncomputable def glLookAt (eye center up : Vec3) : M4 :=
  if |eye.x - center.x| < glEPS ∧ |eye.y - center.y| < glEPS ∧
      |eye.z - center.z| < glEPS then mat4idt
  else
    let z0 := eye.x - center.x
    let z1 := eye.y - center.y
    let z2 := eye.z - center.z
    let lz := 1 / Real.sqrt (z0 * z0 + z1 * z1 + z2 * z2)
    let z0 := z0 * lz
    let z1 := z1 * lz
    let z2 := z2 * lz
    let x0 := up.y * z2 - up.z * z1
    let x1 := up.z * z0 - up.x * z2
    let x2 := up.x * z1 - up.y * z0
    let lx := Real.sqrt (x0 * x0 + x1 * x1 + x2 * x2)
    let x0 := if lx = 0 then 0 else x0 * (1 / lx)
    let x1 := if lx = 0 then 0 else x1 * (1 / lx)
    let x2 := if lx = 0 then 0 else x2 * (1 / lx)
    let y0 := z1 * x2 - z2 * x1
    let y1 := z2 * x0 - z0 * x2
    let y2 := z0 * x1 - z1 * x0
    let ly := Real.sqrt (y0 * y0 + y1 * y1 + y2 * y2)
    let y0 := if ly = 0 then 0 else y0 * (1 / ly)
    let y1 := if ly = 0 then 0 else y1 * (1 / ly)
    let y2 := if ly = 0 then 0 else y2 * (1 / ly)
    ⟨x0, y0, z0, 0,
     x1, y1, z1, 0,
     x2, y2, z2, 0,
     -(x0 * eye.x + x1 * eye.y + x2 * eye.z),
     -(y0 * eye.x + y1 * eye.y + y2 * eye.z),
     -(z0 * eye.x + z1 * eye.y + z2 * eye.z), 1⟩

-- --------------------------- Matrix4.ts operations -------------------------

/-- common.ts toRad: degree-to-radian factor. -/
noncomputable def toRadC : ℝ := Real.pi / 180

/-- mat4.rotate of Matrix4.ts: multiplies m on the right by the rotation
matrix of the quaternion. -/
def mat4rotate (m : M4) (q : Quat) : M4 := glMul m (glFromQuat q)

/-- mat4.fromRotation: identity followed by mat4.rotate in place. -/
def mat4fromRotation (q : Quat) : M4 := mat4rotate mat4idt q

/-- mat4.getTranslation: reads the translation column. -/
def mat4getTranslation (m : M4) : Vec3 := ⟨m.m12, m.m13, m.m14⟩

/-- mat4.setTranslation: copies m into out and overwrites indices 12..14
with the translation (the previous content of out is irrelevant). -/
def mat4setTranslation (m : M4) (translation : Vec3) (_out : M4) : M4 :=
  { m with m12 := translation.x, m13 := translation.y, m14 := translation.z }

/-- mat4.getScale = gl getScaling. -/
noncomputable def mat4getScale (m : M4) : Vec3 := glGetScaling m

/-- mat4.setScale: copies m and scales its columns by scale / getScale(m). -/
noncomputable def mat4setScale (m : M4) (scale : Vec3) : M4 :=
  glScale m (vec3div scale (mat4getScale m))

/-- mat4.getRotation of Matrix4.ts: gl getRotation of the matrix with its
scale set to one, then quat.normalize. -/
noncomputable def mat4getRotation (m : M4) : Quat :=
  vec4normalize (glGetRotationRaw (mat4setScale m vec3one))

/-- mat4.compose on a fully populated transform: the six-way switch of
Matrix4.ts, each arm a hardcoded constructor-then-two-operators sequence. -/
def mat4compose (t : Transform3D) : M4 :=
  match t.order with
  | .TRS => glScale (mat4rotate (glFromTranslation t.translation) t.rotation) t.scale
  | .RTS => glScale (glTranslate (mat4fromRotation t.rotation) t.translation) t.scale
  | .STR => mat4rotate (glTranslate (glFromScaling t.scale) t.translation) t.rotation
  | .SRT => glTranslate (mat4rotate (glFromScaling t.scale) t.rotation) t.translation
  | .RST => glTranslate (glScale (mat4fromRotation t.rotation) t.scale) t.translation
  | .TSR => mat4rotate (glScale (glFromTranslation t.translation) t.scale) t.rotation

/-- The in-place defaulting mat4.compose performs on its argument before the
switch: missing fields are assigned the shared frozen constants. -/
def fillTransform (p : Transform3DPatch) : Transform3D :=
  ⟨p.translation.getD vec3zero, p.rotation.getD quatIdt,
   p.scale.getD vec3one, p.order.getD TransformOrder.TRS⟩

/-- mat4.compose on a partial transform, returning both the mutated argument
(every field now populated) and the composed matrix.  The first component is
the state of the caller's transform object after the call. -/
def mat4composeMut (p : Transform3DPatch) : Transform3DPatch × M4 :=
  let f := fillTransform p
  (⟨some f.translation, some f.rotation, some f.scale, some f.order⟩, mat4compose f)

/-- mat4.compose viewed only through its return value. -/
def mat4composeP (p : Transform3DPatch) : M4 := (mat4composeMut p).2

/-- The runtime switch of mat4.compose over an arbitrary order string: the
switch has no default arm, so an unrecognized string produces no matrix
(undefined in JavaScript, embedded as none) and raises no error. -/
def mat4composeStr (order : String) (translation : Vec3) (rotation : Quat)
    (scale : Vec3) : Option M4 :=
  if order = "TRS" then some (mat4compose ⟨translation, rotation, scale, .TRS⟩)
  else if order = "RTS" then some (mat4compose ⟨translation, rotation, scale, .RTS⟩)
  else if order = "STR" then some (mat4compose ⟨translation, rotation, scale, .STR⟩)
  else if order = "SRT" then some (mat4compose ⟨translation, rotation, scale, .SRT⟩)
  else if order = "RST" then some (mat4compose ⟨translation, rotation, scale, .RST⟩)
  else if order = "TSR" then some (mat4compose ⟨translation, rotation, scale, .TSR⟩)
  else none

/-- mat4.decompose: translation from the last column, rotation via
getRotation (scale normalized out, then quaternion normalized), scale via
column magnitudes; the reported order is always TRS. -/
noncomputable def mat4decompose (m : M4) : Transform3D :=
  ⟨mat4getTranslation m, mat4getRotation m, mat4getScale m, .TRS⟩

/-- mat4.lerp: decompose both inputs, lerp translation and scale, slerp
rotation, recompose (the decomposed order is TRS). -/
noncomputable def mat4lerp (a b : M4) (alpha : ℝ) : M4 :=
  let m1 := mat4decompose a
  let m2 := mat4decompose b
  mat4compose ⟨vec3lerp m1.translation m2.translation alpha,
               quatSlerp m1.rotation m2.rotation alpha,
               vec3lerp m1.scale m2.scale alpha, .TRS⟩

/-- mat4.equals: all 16 coefficients nearly equal at the tolerance. -/
def mat4equalsTol (a b : M4) (tolerance : ℝ) : Prop :=
  isNearlyEqual a.m0 b.m0 tolerance ∧ isNearlyEqual a.m1 b.m1 tolerance ∧
  isNearlyEqual a.m2 b.m2 tolerance ∧ isNearlyEqual a.m3 b.m3 tolerance ∧
  isNearlyEqual a.m4 b.m4 tolerance ∧ isNearlyEqual a.m5 b.m5 tolerance ∧
  isNearlyEqual a.m6 b.m6 tolerance ∧ isNearlyEqual a.m7 b.m7 tolerance ∧
  isNearlyEqual a.m8 b.m8 tolerance ∧ isNearlyEqual a.m9 b.m9 tolerance ∧
  isNearlyEqual a.m10 b.m10 tolerance ∧ isNearlyEqual a.m11 b.m11 tolerance ∧
  isNearlyEqual a.m12 b.m12 tolerance ∧ isNearlyEqual a.m13 b.m13 tolerance ∧
  isNearlyEqual a.m14 b.m14 tolerance ∧ isNearlyEqual a.m15 b.m15 tolerance

/-- mat4.transformEquals: decompose both matrices and compare translation,
rotation and scale component-wise at the tolerance. -/
noncomputable def mat4transformEquals (a b : M4) (tolerance : ℝ) : Prop :=
  let m1 := mat4decompose a
  let m2 := mat4decompose b
  vec3equalsTol m1.translation m2.translation tolerance ∧
    quatEqualsTol m1.rotation m2.rotation tolerance ∧
    vec3equalsTol m1.scale m2.scale tolerance

/-- mat4.perspectiveProjection: converts fov from degrees and calls the gl
perspective primitive. -/
noncomputable def mat4perspectiveProjection (fov aspect near far : ℝ) : M4 :=
  glPerspective (fov * toRadC) aspect near far

/-- The Camera3D record with every field present (the claims supply all
fields; aspect is mandatory in the source). -/
structure Camera3D where
  position : Vec3
  rotation : Quat
  fov : ℝ
  aspect : ℝ
  near : ℝ
  far : ℝ

/-- mat4.viewProjection3d: forward and up from rotating the world forward
and up vectors (up negated), view via lookAt(position, position + forward,
up), perspective projection, result projection * view. -/
noncomputable def mat4viewProjection3d (camera : Camera3D) : M4 :=
  let fwd := vec3normalize (vec3rotate vec3forward camera.rotation)
  let upv := vec3normalize (vec3negate (vec3rotate vec3up camera.rotation))
  let view := glLookAt camera.position (vec3add camera.position fwd) upv
  let proj := mat4perspectiveProjection camera.fov camera.aspect camera.near camera.far
  glMul proj view

/-- The canonical view volume with positive depth: every normalized device
coordinate within [-1, 1] and depth strictly positive. -/
def insideViewVolumePosDepth (p : Vec3) : Prop :=
  |p.x| ≤ 1 ∧ |p.y| ≤ 1 ∧ |p.z| ≤ 1 ∧ 0 < p.z

-- ----------------------- RefVector / ConstRefVector ------------------------

/-- RefVector of RefVector.ts: a non-owning view into a caller buffer at an
element offset.  The backing buffer is explicit state in this embedding:
every accessor takes and, for writes, returns the buffer. -/
structure RefVector where
  off : ℕ

/-- ConstRefVector of RefVector.ts: the read-only view over the same layout. -/
structure ConstRefVector where
  off : ℕ

/-- Writing the x component through a RefVector stores into buffer[offset]. -/
def RefVector.setX (r : RefVector) (arr : List ℝ) (value : ℝ) : List ℝ :=
  arr.set r.off value

/-- Reading the x component through a RefVector reads buffer[offset]. -/
def RefVector.getX (r : RefVector) (arr : List ℝ) : ℝ :=
  arr.getD r.off 0

/-- Reading the x component through a ConstRefVector reads buffer[offset]. -/
def ConstRefVector.getX (r : ConstRefVector) (arr : List ℝ) : ℝ :=
  arr.getD r.off 0

/-- vec4.ref: wraps the buffer offset in a mutable view (no copy). -/
def vec4ref (off : ℕ) : RefVector := ⟨off⟩

/-- vec4.refConst: wraps the buffer offset in a read-only view (no copy). -/
def vec4refConst (off : ℕ) : ConstRefVector := ⟨off⟩

-- ------------------------- mat2x3 (Vector4.ts part) ------------------------

/-- gl-matrix mat2d.fromTranslation. -/
def gl2FromTranslation (v : Vec2) : M23 := ⟨1, 0, 0, 1, v.x, v.y⟩

/-- gl-matrix mat2d.fromRotation. -/
noncomputable def gl2FromRotation (rad : ℝ) : M23 :=
  ⟨Real.cos rad, Real.sin rad, -Real.sin rad, Real.cos rad, 0, 0⟩

/-- gl-matrix mat2d.fromScaling. -/
def gl2FromScaling (v : Vec2) : M23 := ⟨v.x, 0, 0, v.y, 0, 0⟩

/-- gl-matrix mat2d.translate. -/
def gl2Translate (m : M23) (v : Vec2) : M23 :=
  ⟨m.m0, m.m1, m.m2, m.m3,
   m.m0 * v.x + m.m2 * v.y + m.m4, m.m1 * v.x + m.m3 * v.y + m.m5⟩

/-- gl-matrix mat2d.rotate. -/
noncomputable def gl2Rotate (m : M23) (rad : ℝ) : M23 :=
  let s := Real.sin rad
  let c := Real.cos rad
  ⟨m.m0 * c + m.m2 * s, m.m1 * c + m.m3 * s,
   m.m0 * (-s) + m.m2 * c, m.m1 * (-s) + m.m3 * c, m.m4, m.m5⟩

/-- gl-matrix mat2d.scale. -/
def gl2Scale (m : M23) (v : Vec2) : M23 :=
  ⟨m.m0 * v.x, m.m1 * v.x, m.m2 * v.y, m.m3 * v.y, m.m4, m.m5⟩

/-- mat2x3.setTranslation: writes only out[4] and out[5]; unlike the mat4
version it never copies m into out, so the linear part of the result is
whatever out already held. -/
def mat2x3setTranslation (_m : M23) (translation : Vec2) (out : M23) : M23 :=
  { out with m4 := translation.x, m5 := translation.y }

/-- mat2x3.setRotation: an unimplemented stub; the source body is a single
throw new Error("TODO"). -/
def mat2x3setRotation (_m : M23) (_rotation : ℝ) (_out : M23) : Except String M23 :=
  Except.error "TODO"

/-- The runtime switch of mat2x3.compose over an arbitrary order string,
mirroring the mat4 one: no default arm, unrecognized orders produce none. -/
noncomputable def mat2x3composeStr (order : String) (translation : Vec2)
    (rotation : ℝ) (scale : Vec2) : Option M23 :=
  if order = "TRS" then
    some (gl2Scale (gl2Rotate (gl2FromTranslation translation) rotation) scale)
  else if order = "RTS" then
    some (gl2Scale (gl2Translate (gl2FromRotation rotation) translation) scale)
  else if order = "STR" then
    some (gl2Rotate (gl2Translate (gl2FromScaling scale) translation) rotation)
  else if order = "SRT" then
    some (gl2Translate (gl2Rotate (gl2FromScaling scale) rotation) translation)
  else if order = "RST" then
    some (gl2Translate (gl2Scale (gl2FromRotation rotation) scale) translation)
  else if order = "TSR" then
    some (gl2Rotate (gl2Scale (gl2FromTranslation translation) scale) rotation)
  else none


-- ------------------- canonical quaternion representative -------------------

/-- The sign (+1 or -1) of the pivot component that the trace-based branch
algorithm of gl getRotation selects on the rotation matrix of a unit
quaternion: the w component when the matrix trace is positive (w^2 > 1/4),
otherwise the component with the largest square among x, y, z in the branch
testing sequence of the gl source. -/
noncomputable def pivotSign (q : Quat) : ℝ :=
  if 1 / 4 < q.w ^ 2 then (if q.w < 0 then -1 else 1)
  else if q.y ^ 2 < q.x ^ 2 ∧ q.z ^ 2 < q.x ^ 2 then (if q.x < 0 then -1 else 1)
  else if q.z ^ 2 < q.y ^ 2 then (if q.y < 0 then -1 else 1)
  else (if q.z < 0 then -1 else 1)

/-- The pivot-positive representative of a quaternion: q scaled by its pivot
sign.  For a unit quaternion this is the representative of the same rotation
that gl getRotation returns from the rotation matrix of q. -/
noncomputable def canonQ (q : Quat) : Quat :=
  ⟨pivotSign q * q.x, pivotSign q * q.y, pivotSign q * q.z, pivotSign q * q.w⟩

/-- The rotation matrix of the quaternion (x, y, z, w) carrying a
translation column (tx, ty, tz): the matrix shape obtained by normalizing
the scale out of a TRS-composed matrix (glFromQuat entries plus
translation). -/
def rotMatT (x y z w tx ty tz : ℝ) : M4 :=
  ⟨1 - y * (y + y) - z * (z + z), y * (x + x) + w * (z + z),
   z * (x + x) - w * (y + y), 0,
   y * (x + x) - w * (z + z), 1 - x * (x + x) - z * (z + z),
   z * (y + y) + w * (x + x), 0,
   z * (x + x) + w * (y + y), z * (y + y) - w * (x + x),
   1 - x * (x + x) - y * (y + y), 0,
   tx, ty, tz, 1⟩

-- ======================== theorems: easy claims ============================

/-- C7: mat2x3.setRotation unconditionally raises its not-implemented
("TODO") error for every input matrix, rotation and output argument; it
never returns a matrix and never writes the output. -/
theorem c7_mat2x3_setRotation_always_errors (m : M23) (rotation : ℝ) (out : M23) :
    mat2x3setRotation m rotation out = Except.error "TODO" := rfl

/-- C10: mat2x3.setTranslation writes only the two translation coefficients
out[4], out[5]; its result's linear part is whatever out previously held
(the identity when out is defaulted), while mat4.setTranslation copies m
into out first; for a matrix m with non-identity linear part the 2D result's
linear coefficients therefore differ from those of m. -/
theorem c10_mat2x3_setTranslation_partial_write :
    (∀ (m : M23) (t : Vec2) (out : M23),
      mat2x3setTranslation m t out = ⟨out.m0, out.m1, out.m2, out.m3, t.x, t.y⟩) ∧
    (∀ (m : M4) (t : Vec3) (out : M4),
      mat4setTranslation m t out =
        ⟨m.m0, m.m1, m.m2, m.m3, m.m4, m.m5, m.m6, m.m7, m.m8, m.m9, m.m10, m.m11,
         t.x, t.y, t.z, m.m15⟩) ∧
    mat2x3setTranslation ⟨2, 0, 0, 1, 0, 0⟩ ⟨3, 4⟩ mat2x3idt = ⟨1, 0, 0, 1, 3, 4⟩ ∧
    (mat2x3setTranslation ⟨2, 0, 0, 1, 0, 0⟩ ⟨3, 4⟩ mat2x3idt).m0 ≠
      (⟨2, 0, 0, 1, 0, 0⟩ : M23).m0 := by
  refine ⟨fun m t out => rfl, fun m t out => rfl, rfl, ?_⟩
  simp only [mat2x3setTranslation, mat2x3idt]
  norm_num

/-- C2: an order value outside the six known strings matches no arm of the
compose switch of mat4 (nor of mat2x3): the call produces no defined output
matrix (none, the undefined result) and raises no error. -/
theorem c2_compose_unknown_order_undefined (order : String)
    (h : order ∉ (["TRS", "RTS", "STR", "SRT", "RST", "TSR"] : List String))
    (t3 : Vec3) (r3 : Quat) (s3 : Vec3) (t2 : Vec2) (r2 : ℝ) (s2 : Vec2) :
    mat4composeStr order t3 r3 s3 = none ∧ mat2x3composeStr order t2 r2 s2 = none := by
  simp only [List.mem_cons, List.not_mem_nil, or_false, not_or] at h
  obtain ⟨h1, h2, h3, h4, h5, h6⟩ := h
  constructor <;> simp [mat4composeStr, mat2x3composeStr, h1, h2, h3, h4, h5, h6]

/-- Witness for C2 at the concrete unrecognized order string "XYZ". -/
theorem c2_compose_unknown_order_undefined_witness :
    "XYZ" ∉ (["TRS", "RTS", "STR", "SRT", "RST", "TSR"] : List String) ∧
    mat4composeStr "XYZ" vec3zero quatIdt vec3one = none ∧
    mat2x3composeStr "XYZ" ⟨0, 0⟩ 0 ⟨1, 1⟩ = none := by
  have h : "XYZ" ∉ (["TRS", "RTS", "STR", "SRT", "RST", "TSR"] : List String) := by
    decide
  have h2 := c2_compose_unknown_order_undefined "XYZ" h vec3zero quatIdt vec3one
    ⟨0, 0⟩ 0 ⟨1, 1⟩
  exact ⟨h, h2.1, h2.2⟩

/-- C9: mat4.compose mutates its transform argument: after the call every
field is populated, each previously missing field now holding the shared
frozen default (vec3.zero, quat.idt, vec3.one, order TRS), so compose is not
read-only on its transform parameter. -/
theorem c9_compose_mutates_argument (p : Transform3DPatch) :
    (mat4composeMut p).1.translation = some (p.translation.getD vec3zero) ∧
    (mat4composeMut p).1.rotation = some (p.rotation.getD quatIdt) ∧
    (mat4composeMut p).1.scale = some (p.scale.getD vec3one) ∧
    (mat4composeMut p).1.order = some (p.order.getD TransformOrder.TRS) ∧
    (p.translation = none → (mat4composeMut p).1 ≠ p) := by
  refine ⟨rfl, rfl, rfl, rfl, fun hnone hEq => ?_⟩
  have h := congrArg Transform3DPatch.translation hEq
  simp only [mat4composeMut, fillTransform, hnone] at h
  exact Option.noConfusion h

/-- Witness for C9 at the fully empty transform argument. -/
theorem c9_compose_mutates_argument_witness :
    (mat4composeMut ⟨none, none, none, none⟩).1.translation = some vec3zero ∧
    (mat4composeMut ⟨none, none, none, none⟩).1 ≠ ⟨none, none, none, none⟩ := by
  have h := c9_compose_mutates_argument ⟨none, none, none, none⟩
  exact ⟨h.1, h.2.2.2.2 rfl⟩

/-- C4: mat4.compose({}), with translation defaulted to zero, rotation to
the identity quaternion, scale to one and order to TRS, returns exactly the
4x4 identity matrix. -/
theorem c4_compose_empty_is_identity :
    mat4composeP ⟨none, none, none, none⟩ = mat4idt := by
  ext <;>
    simp [mat4composeP, mat4composeMut, fillTransform, mat4compose, glScale,
      mat4rotate, glMul, glFromTranslation, glFromQuat, vec3zero, vec3one,
      quatIdt, mat4idt]

/-- C8: writing the x component through a ref view at offset 4 of a
16-element buffer mutates buffer[4], and an independent refConst view over
the same buffer at offset 4 reads back the written value: the views alias
the buffer rather than copying it. -/
theorem c8_ref_write_through (buf : List ℝ) (v : ℝ) (h : buf.length = 16) :
    ((vec4ref 4).setX buf v).getD 4 0 = v ∧
    (vec4refConst 4).getX ((vec4ref 4).setX buf v) = v := by
  have h4 : 4 < buf.length := by omega
  have key : ((vec4ref 4).setX buf v).getD 4 0 = v := by
    simp only [RefVector.setX, vec4ref, List.getD_eq_getElem?_getD,
      List.getElem?_set_eq_of_lt v h4, Option.getD_some]
  exact ⟨key, key⟩

/-- Witness for C8 at a concrete all-zero 16-element buffer and value 7. -/
theorem c8_ref_write_through_witness :
    (List.replicate 16 (0 : ℝ)).length = 16 ∧
    ((vec4ref 4).setX (List.replicate 16 (0 : ℝ)) 7).getD 4 0 = 7 ∧
    (vec4refConst 4).getX ((vec4ref 4).setX (List.replicate 16 (0 : ℝ)) 7) = 7 := by
  have h := c8_ref_write_through (List.replicate 16 (0 : ℝ)) 7 (by simp)
  exact ⟨by simp, h.1, h.2⟩

-- ===================== helper lemmas for C1 and C3 =========================

theorem pivotSign_eq_one_or (q : Quat) : pivotSign q = 1 ∨ pivotSign q = -1 := by
  unfold pivotSign
  split_ifs <;> simp

theorem pivotSign_sq (q : Quat) : pivotSign q ^ 2 = 1 := by
  rcases pivotSign_eq_one_or q with h | h <;> rw [h] <;> norm_num

theorem sqrt_col_one (a b c : ℝ) (h : a ^ 2 + b ^ 2 + c ^ 2 = 1) :
    Real.sqrt (a * a + b * b + c * c) = 1 := by
  rw [show a * a + b * b + c * c = 1 by linear_combination h]
  exact Real.sqrt_one

theorem sqrt_col_scaled (a b c k : ℝ) (hk : 0 ≤ k) (h : a ^ 2 + b ^ 2 + c ^ 2 = 1) :
    Real.sqrt (a * k * (a * k) + b * k * (b * k) + c * k * (c * k)) = k := by
  rw [show a * k * (a * k) + b * k * (b * k) + c * k * (c * k) = k ^ 2 by
    linear_combination (k ^ 2) * h]
  exact Real.sqrt_sq hk

theorem col0_unit (x y z w : ℝ) (hq : x ^ 2 + y ^ 2 + z ^ 2 + w ^ 2 = 1) :
    (1 - y * (y + y) - z * (z + z)) ^ 2 + (y * (x + x) + w * (z + z)) ^ 2 +
      (z * (x + x) - w * (y + y)) ^ 2 = 1 := by
  linear_combination (4 * y ^ 2 + 4 * z ^ 2) * hq

theorem col1_unit (x y z w : ℝ) (hq : x ^ 2 + y ^ 2 + z ^ 2 + w ^ 2 = 1) :
    (y * (x + x) - w * (z + z)) ^ 2 + (1 - x * (x + x) - z * (z + z)) ^ 2 +
      (z * (y + y) + w * (x + x)) ^ 2 = 1 := by
  linear_combination (4 * x ^ 2 + 4 * z ^ 2) * hq

theorem col2_unit (x y z w : ℝ) (hq : x ^ 2 + y ^ 2 + z ^ 2 + w ^ 2 = 1) :
    (z * (x + x) + w * (y + y)) ^ 2 + (z * (y + y) - w * (x + x)) ^ 2 +
      (1 - x * (x + x) - y * (y + y)) ^ 2 = 1 := by
  linear_combination (4 * x ^ 2 + 4 * y ^ 2) * hq

/-- The TRS arm of mat4.compose written out entrywise: linear part is the
rotation matrix with column j scaled by scale component j, translation
column is the translation. -/
theorem mat4compose_TRS_eq (t : Vec3) (q : Quat) (s : Vec3) :
    mat4compose ⟨t, q, s, .TRS⟩ =
      ⟨(1 - q.y * (q.y + q.y) - q.z * (q.z + q.z)) * s.x,
       (q.y * (q.x + q.x) + q.w * (q.z + q.z)) * s.x,
       (q.z * (q.x + q.x) - q.w * (q.y + q.y)) * s.x,
       0,
       (q.y * (q.x + q.x) - q.w * (q.z + q.z)) * s.y,
       (1 - q.x * (q.x + q.x) - q.z * (q.z + q.z)) * s.y,
       (q.z * (q.y + q.y) + q.w * (q.x + q.x)) * s.y,
       0,
       (q.z * (q.x + q.x) + q.w * (q.y + q.y)) * s.z,
       (q.z * (q.y + q.y) - q.w * (q.x + q.x)) * s.z,
       (1 - q.x * (q.x + q.x) - q.y * (q.y + q.y)) * s.z,
       0, t.x, t.y, t.z, 1⟩ := by
  ext <;>
    simp [mat4compose, glScale, mat4rotate, glMul, glFromTranslation,
      glFromQuat]

/-- Scale extraction on a TRS-composed matrix with nonnegative scale
recovers the scale exactly: each column norm is the scale component. -/
theorem mat4getScale_composeTRS (t : Vec3) (q : Quat) (s : Vec3)
    (hq : q.x ^ 2 + q.y ^ 2 + q.z ^ 2 + q.w ^ 2 = 1)
    (hx : 0 ≤ s.x) (hy : 0 ≤ s.y) (hz : 0 ≤ s.z) :
    mat4getScale (mat4compose ⟨t, q, s, .TRS⟩) = s := by
  rw [mat4compose_TRS_eq]
  ext
  · exact sqrt_col_scaled _ _ _ _ hx (col0_unit q.x q.y q.z q.w hq)
  · exact sqrt_col_scaled _ _ _ _ hy (col1_unit q.x q.y q.z q.w hq)
  · exact sqrt_col_scaled _ _ _ _ hz (col2_unit q.x q.y q.z q.w hq)

/-- Setting the scale of a TRS-composed matrix to one divides the scale out
of the columns, leaving exactly the rotation matrix of the quaternion with
the original translation column. -/
theorem mat4setScale_one_composeTRS (t : Vec3) (q : Quat) (s : Vec3)
    (hq : q.x ^ 2 + q.y ^ 2 + q.z ^ 2 + q.w ^ 2 = 1)
    (hx : 0 < s.x) (hy : 0 < s.y) (hz : 0 < s.z) :
    mat4setScale (mat4compose ⟨t, q, s, .TRS⟩) vec3one =
      rotMatT q.x q.y q.z q.w t.x t.y t.z := by
  unfold mat4setScale
  rw [mat4getScale_composeTRS t q s hq hx.le hy.le hz.le, mat4compose_TRS_eq]
  have hx' := hx.ne'
  have hy' := hy.ne'
  have hz' := hz.ne'
  ext <;> simp [glScale, vec3div, vec3one, rotMatT] <;> field_simp

set_option maxHeartbeats 1600000 in
/-- The gl getRotation branch algorithm applied to the rotation matrix of a
unit quaternion (with any translation column) recovers the quaternion up to
the pivot sign: the result is the pivot-positive representative. -/
theorem glGetRotationRaw_rotMatT (x y z w tx ty tz : ℝ)
    (hq : x ^ 2 + y ^ 2 + z ^ 2 + w ^ 2 = 1) :
    glGetRotationRaw (rotMatT x y z w tx ty tz) = canonQ ⟨x, y, z, w⟩ := by
  have c0 := col0_unit x y z w hq
  have c1 := col1_unit x y z w hq
  have c2 := col2_unit x y z w hq
  simp only [glGetRotationRaw, glGetScaling, rotMatT]
  rw [sqrt_col_one _ _ _ c0, sqrt_col_one _ _ _ c1, sqrt_col_one _ _ _ c2]
  simp only [one_div_one, mul_one]
  split_ifs with h1 h2 h3
  · -- trace positive: w is the pivot
    have hw : 1 / 4 < w ^ 2 := by linarith [h1, hq]
    have hS : 1 - y * (y + y) - z * (z + z) + (1 - x * (x + x) - z * (z + z)) +
        (1 - x * (x + x) - y * (y + y)) + 1 = (2 * w) ^ 2 := by
      linear_combination (-4) * hq
    simp only [canonQ, pivotSign, if_pos hw]
    have hw0 : w ≠ 0 := by
      intro h0
      rw [h0] at hw
      norm_num at hw
    rw [hS, Real.sqrt_sq_eq_abs]
    rcases lt_or_gt_of_ne hw0 with hneg | hpos
    · rw [abs_of_neg (by linarith : 2 * w < 0), if_pos hneg]
      ext <;> field_simp <;> ring
    · rw [abs_of_pos (by linarith : 0 < 2 * w), if_neg (by linarith : ¬w < 0)]
      ext <;> field_simp <;> ring
  · -- x pivot branch
    have hA : y ^ 2 < x ^ 2 ∧ z ^ 2 < x ^ 2 := ⟨by linarith [h2.1], by linarith [h2.2]⟩
    have hnw : ¬(1 / 4 < w ^ 2) := by
      intro hw
      exact h1 (by linarith [hq, hw])
    have hx0 : x ≠ 0 := by
      intro h0
      rw [h0] at hA
      have := hA.1
      have hyn := sq_nonneg y
      norm_num at this
      linarith
    have hS : 1 + (1 - y * (y + y) - z * (z + z)) - (1 - x * (x + x) - z * (z + z)) -
        (1 - x * (x + x) - y * (y + y)) = (2 * x) ^ 2 := by ring
    simp only [canonQ, pivotSign, if_neg hnw, if_pos hA]
    rw [hS, Real.sqrt_sq_eq_abs]
    rcases lt_or_gt_of_ne hx0 with hneg | hpos
    · rw [abs_of_neg (by linarith : 2 * x < 0), if_pos hneg]
      ext <;> field_simp <;> ring
    · rw [abs_of_pos (by linarith : 0 < 2 * x), if_neg (by linarith : ¬x < 0)]
      ext <;> field_simp <;> ring
  · -- y pivot branch
    have hnw : ¬(1 / 4 < w ^ 2) := by
      intro hw
      exact h1 (by linarith [hq, hw])
    have hn2 : ¬(y ^ 2 < x ^ 2 ∧ z ^ 2 < x ^ 2) := by
      intro hp
      exact h2 ⟨by linarith [hp.1], by linarith [hp.2]⟩
    have hy2 : z ^ 2 < y ^ 2 := by linarith [h3]
    have hy0 : y ≠ 0 := by
      intro h0
      rw [h0] at hy2
      have hzn := sq_nonneg z
      norm_num at hy2
      linarith
    have hS : 1 + (1 - x * (x + x) - z * (z + z)) - (1 - y * (y + y) - z * (z + z)) -
        (1 - x * (x + x) - y * (y + y)) = (2 * y) ^ 2 := by ring
    simp only [canonQ, pivotSign, if_neg hnw, if_neg hn2, if_pos hy2]
    rw [hS, Real.sqrt_sq_eq_abs]
    rcases lt_or_gt_of_ne hy0 with hneg | hpos
    · rw [abs_of_neg (by linarith : 2 * y < 0), if_pos hneg]
      ext <;> field_simp <;> ring
    · rw [abs_of_pos (by linarith : 0 < 2 * y), if_neg (by linarith : ¬y < 0)]
      ext <;> field_simp <;> ring
  · -- z pivot branch
    have hnw : ¬(1 / 4 < w ^ 2) := by
      intro hw
      exact h1 (by linarith [hq, hw])
    have hn2 : ¬(y ^ 2 < x ^ 2 ∧ z ^ 2 < x ^ 2) := by
      intro hp
      exact h2 ⟨by linarith [hp.1], by linarith [hp.2]⟩
    have hn3 : ¬(z ^ 2 < y ^ 2) := by
      intro hp
      exact h3 (by linarith [hp])
    have hz0 : z ≠ 0 := by
      intro h0
      subst h0
      have hw14 := le_of_not_lt hnw
      rcases not_and_or.mp hn2 with h | h
      · have hxy : x ^ 2 ≤ y ^ 2 := le_of_not_lt h
        have hy0 : y ^ 2 ≤ 0 := by
          have := le_of_not_lt hn3
          norm_num at this
          linarith
        linarith [hq]
      · have hx0 : x ^ 2 ≤ 0 := by
          have := le_of_not_lt h
          norm_num at this
          linarith
        have hy0 : y ^ 2 ≤ 0 := by
          have := le_of_not_lt hn3
          norm_num at this
          linarith
        linarith [hq]
    have hS : 1 + (1 - x * (x + x) - y * (y + y)) - (1 - y * (y + y) - z * (z + z)) -
        (1 - x * (x + x) - z * (z + z)) = (2 * z) ^ 2 := by ring
    simp only [canonQ, pivotSign, if_neg hnw, if_neg hn2, if_neg hn3]
    rw [hS, Real.sqrt_sq_eq_abs]
    rcases lt_or_gt_of_ne hz0 with hneg | hpos
    · rw [abs_of_neg (by linarith : 2 * z < 0), if_pos hneg]
      ext <;> field_simp <;> ring
    · rw [abs_of_pos (by linarith : 0 < 2 * z), if_neg (by linarith : ¬z < 0)]
      ext <;> field_simp <;> ring

/-- quat.normalize leaves a quaternion of unit square-sum unchanged. -/
theorem vec4normalize_unit (v : Quat)
    (h : v.x * v.x + v.y * v.y + v.z * v.z + v.w * v.w = 1) :
    vec4normalize v = v := by
  simp only [vec4normalize, h, Real.sqrt_one]
  norm_num

/-- The pivot-positive representative of a unit quaternion has unit
square-sum. -/
theorem canonQ_normSq (q : Quat) (hq : q.x ^ 2 + q.y ^ 2 + q.z ^ 2 + q.w ^ 2 = 1) :
    (canonQ q).x * (canonQ q).x + (canonQ q).y * (canonQ q).y +
      (canonQ q).z * (canonQ q).z + (canonQ q).w * (canonQ q).w = 1 := by
  simp only [canonQ]
  have hp := pivotSign_sq q
  linear_combination (pivotSign q ^ 2) * hq + hp

/-- Rotation extraction on a TRS-composed matrix with unit rotation and
positive scale recovers the pivot-positive representative of the rotation
quaternion exactly. -/
theorem mat4getRotation_composeTRS (t : Vec3) (q : Quat) (s : Vec3)
    (hq : q.x ^ 2 + q.y ^ 2 + q.z ^ 2 + q.w ^ 2 = 1)
    (hx : 0 < s.x) (hy : 0 < s.y) (hz : 0 < s.z) :
    mat4getRotation (mat4compose ⟨t, q, s, .TRS⟩) = canonQ q := by
  unfold mat4getRotation
  rw [mat4setScale_one_composeTRS t q s hq hx hy hz,
    glGetRotationRaw_rotMatT q.x q.y q.z q.w t.x t.y t.z hq]
  exact vec4normalize_unit _ (canonQ_normSq q hq)

/-- mat4.decompose of a TRS-composed matrix with unit rotation and positive
scale: translation and scale come back exactly, the rotation comes back as
its pivot-positive representative, and the order field is TRS. -/
theorem mat4decompose_composeTRS (t : Vec3) (q : Quat) (s : Vec3)
    (hq : q.x ^ 2 + q.y ^ 2 + q.z ^ 2 + q.w ^ 2 = 1)
    (hx : 0 < s.x) (hy : 0 < s.y) (hz : 0 < s.z) :
    mat4decompose (mat4compose ⟨t, q, s, .TRS⟩) = ⟨t, canonQ q, s, .TRS⟩ := by
  unfold mat4decompose
  rw [mat4getRotation_composeTRS t q s hq hx hy hz,
    mat4getScale_composeTRS t q s hq hx.le hy.le hz.le]
  have htr : mat4getTranslation (mat4compose ⟨t, q, s, .TRS⟩) = t := by
    rw [mat4compose_TRS_eq]
    rfl
  rw [htr]

/-- The pivot-positive representative is the quaternion itself or its
negation. -/
theorem canonQ_eq_or (q : Quat) : canonQ q = q ∨ canonQ q = Quat.neg q := by
  rcases pivotSign_eq_one_or q with h | h
  · left
    ext <;> simp [canonQ, h]
  · right
    ext <;> simp [canonQ, h, Quat.neg]

/-- The rotation matrix is invariant under quaternion negation (the two
representatives of a rotation give the same matrix). -/
theorem glFromQuat_negQ (q : Quat) : glFromQuat (Quat.neg q) = glFromQuat q := by
  ext <;> simp [glFromQuat, Quat.neg] <;> ring

/-- The rotation matrix is invariant under scaling the quaternion by a sign
(its entries are quadratic in the components). -/
theorem glFromQuat_scaled (p : ℝ) (q : Quat) (hp : p ^ 2 = 1) :
    glFromQuat ⟨p * q.x, p * q.y, p * q.z, p * q.w⟩ = glFromQuat q := by
  ext <;> simp only [glFromQuat] <;> ring_nf <;> simp only [hp] <;> ring_nf

/-- The rotation matrix is invariant under passing to the pivot-positive
representative. -/
theorem glFromQuat_canonQ (q : Quat) : glFromQuat (canonQ q) = glFromQuat q :=
  glFromQuat_scaled (pivotSign q) q (pivotSign_sq q)

/-- The TRS composition is invariant under replacing the rotation by its
pivot-positive representative. -/
theorem mat4compose_TRS_canonQ (t : Vec3) (q : Quat) (s : Vec3) :
    mat4compose ⟨t, canonQ q, s, .TRS⟩ = mat4compose ⟨t, q, s, .TRS⟩ := by
  simp only [mat4compose, mat4rotate, glFromQuat_canonQ]

/-- The TRS composition is invariant under quaternion negation. -/
theorem mat4compose_TRS_negQ (t : Vec3) (q : Quat) (s : Vec3) :
    mat4compose ⟨t, Quat.neg q, s, .TRS⟩ = mat4compose ⟨t, q, s, .TRS⟩ := by
  simp only [mat4compose, mat4rotate, glFromQuat_negQ]

theorem isNearlyEqual_self (a tolerance : ℝ) (h : 0 < tolerance) :
    isNearlyEqual a a tolerance := by
  simp [isNearlyEqual, h]

theorem mat4equalsTol_refl (m : M4) (tolerance : ℝ) (h : 0 < tolerance) :
    mat4equalsTol m m tolerance := by
  simp [mat4equalsTol, isNearlyEqual, h]

theorem vec3equalsTol_refl (v : Vec3) (tolerance : ℝ) (h : 0 < tolerance) :
    vec3equalsTol v v tolerance := by
  simp [vec3equalsTol, isNearlyEqual, h]

theorem quatEqualsTol_refl (q : Quat) (tolerance : ℝ) (h : 0 < tolerance) :
    quatEqualsTol q q tolerance := by
  simp [quatEqualsTol, isNearlyEqual, h]

theorem mat4transformEquals_refl (m : M4) (tolerance : ℝ) (h : 0 < tolerance) :
    mat4transformEquals m m tolerance :=
  ⟨vec3equalsTol_refl _ _ h, quatEqualsTol_refl _ _ h, vec3equalsTol_refl _ _ h⟩

-- ============================ C1: round trip ===============================

/-- C1 (amended): for every translation T, unit-quaternion rotation R and
scale S with all components strictly positive, decomposing the TRS
composition returns translation T and scale S exactly, order TRS, and a
rotation equal to R or to -R (the same rotation up to quaternion sign);
recomposing that decomposition under TRS reproduces the composed matrix
exactly, hence within mat4.equals at tolerance 1e-3.  (As stated the claim
fails: a negative scale component or the opposite-sign representative of the
rotation is not recovered; see the counterexample.) -/
theorem c1_trs_roundtrip_amended (t : Vec3) (q : Quat) (s : Vec3)
    (hq : q.x ^ 2 + q.y ^ 2 + q.z ^ 2 + q.w ^ 2 = 1)
    (hx : 0 < s.x) (hy : 0 < s.y) (hz : 0 < s.z) :
    (mat4decompose (mat4compose ⟨t, q, s, .TRS⟩)).translation = t ∧
    (mat4decompose (mat4compose ⟨t, q, s, .TRS⟩)).scale = s ∧
    ((mat4decompose (mat4compose ⟨t, q, s, .TRS⟩)).rotation = q ∨
      (mat4decompose (mat4compose ⟨t, q, s, .TRS⟩)).rotation = Quat.neg q) ∧
    (mat4decompose (mat4compose ⟨t, q, s, .TRS⟩)).order = .TRS ∧
    mat4compose (mat4decompose (mat4compose ⟨t, q, s, .TRS⟩)) =
      mat4compose ⟨t, q, s, .TRS⟩ ∧
    mat4equalsTol (mat4compose (mat4decompose (mat4compose ⟨t, q, s, .TRS⟩)))
      (mat4compose ⟨t, q, s, .TRS⟩) (1 / 1000) := by
  have hd := mat4decompose_composeTRS t q s hq hx hy hz
  rw [hd]
  have hcomp : mat4compose ⟨t, canonQ q, s, .TRS⟩ = mat4compose ⟨t, q, s, .TRS⟩ :=
    mat4compose_TRS_canonQ t q s
  exact ⟨rfl, rfl, canonQ_eq_or q, rfl, hcomp,
    hcomp ▸ mat4equalsTol_refl (mat4compose ⟨t, q, s, .TRS⟩) (1 / 1000) (by norm_num)⟩

/-- Witness for C1 (amended) at T = (1,2,3), R = identity quaternion,
S = (2,3,4). -/
theorem c1_trs_roundtrip_amended_witness :
    (mat4decompose (mat4compose ⟨⟨1, 2, 3⟩, ⟨0, 0, 0, 1⟩, ⟨2, 3, 4⟩, .TRS⟩)).translation
        = ⟨1, 2, 3⟩ ∧
    mat4compose (mat4decompose (mat4compose ⟨⟨1, 2, 3⟩, ⟨0, 0, 0, 1⟩, ⟨2, 3, 4⟩, .TRS⟩))
        = mat4compose ⟨⟨1, 2, 3⟩, ⟨0, 0, 0, 1⟩, ⟨2, 3, 4⟩, .TRS⟩ := by
  have h := c1_trs_roundtrip_amended ⟨1, 2, 3⟩ ⟨0, 0, 0, 1⟩ ⟨2, 3, 4⟩
    (by norm_num) (by norm_num) (by norm_num) (by norm_num)
  exact ⟨h.1, h.2.2.2.2.1⟩

/-- The TRS composition at the counterexample input T = 0, R = (0,0,0,-1),
S = (-1,1,1) is the mirror matrix diag(-1,1,1). -/
theorem c1ce_compose_eq :
    mat4compose ⟨⟨0, 0, 0⟩, ⟨0, 0, 0, -1⟩, ⟨-1, 1, 1⟩, .TRS⟩ =
      ⟨-1, 0, 0, 0, 0, 1, 0, 0, 0, 0, 1, 0, 0, 0, 0, 1⟩ := by
  rw [mat4compose_TRS_eq]
  ext <;> norm_num

theorem c1ce_getScale :
    mat4getScale (⟨-1, 0, 0, 0, 0, 1, 0, 0, 0, 0, 1, 0, 0, 0, 0, 1⟩ : M4) = ⟨1, 1, 1⟩ := by
  simp only [mat4getScale, glGetScaling]
  ext <;> norm_num

theorem c1ce_setScale :
    mat4setScale (⟨-1, 0, 0, 0, 0, 1, 0, 0, 0, 0, 1, 0, 0, 0, 0, 1⟩ : M4) vec3one =
      ⟨-1, 0, 0, 0, 0, 1, 0, 0, 0, 0, 1, 0, 0, 0, 0, 1⟩ := by
  unfold mat4setScale
  rw [c1ce_getScale]
  ext <;> simp [glScale, vec3div, vec3one]

theorem c1ce_raw :
    glGetRotationRaw (⟨-1, 0, 0, 0, 0, 1, 0, 0, 0, 0, 1, 0, 0, 0, 0, 1⟩ : M4) =
      ⟨0, 0, 0, 0.25 * (Real.sqrt 2 * 2)⟩ := by
  simp only [glGetRotationRaw, glGetScaling]
  norm_num

theorem c1ce_normalize :
    vec4normalize ⟨0, 0, 0, 0.25 * (Real.sqrt 2 * 2)⟩ = ⟨0, 0, 0, 1⟩ := by
  have h2 : Real.sqrt 2 * Real.sqrt 2 = 2 := Real.mul_self_sqrt (by norm_num)
  have harg : (0 : ℝ) * 0 + 0 * 0 + 0 * 0 +
      0.25 * (Real.sqrt 2 * 2) * (0.25 * (Real.sqrt 2 * 2)) = 1 / 2 := by
    linear_combination (1 / 4) * h2
  have hs2pos : (0 : ℝ) < Real.sqrt 2 := Real.sqrt_pos.mpr (by norm_num)
  have hhalf : Real.sqrt (1 / 2) = Real.sqrt 2 / 2 := by
    rw [show (1 / 2 : ℝ) = (Real.sqrt 2 / 2) ^ 2 by
      rw [div_pow, sq, h2]; norm_num]
    exact Real.sqrt_sq (by positivity)
  simp only [vec4normalize, harg, hhalf]
  rw [if_neg (by positivity)]
  ext <;> field_simp
  linear_combination (1 / 2) * h2

/-- C1 counterexample: at the concrete input T = (0,0,0), R = (0,0,0,-1)
(a unit quaternion) and S = (-1,1,1) (all components non-zero), the
decomposition of the TRS composition returns rotation (0,0,0,1) and scale
(1,1,1); neither the rotation nor the scale is component-wise within 1e-3
of the input, so the claim as stated is false. -/
theorem c1_counterexample :
    (mat4decompose (mat4compose ⟨⟨0, 0, 0⟩, ⟨0, 0, 0, -1⟩, ⟨-1, 1, 1⟩, .TRS⟩)).rotation.w
        = 1 ∧
    (mat4decompose (mat4compose ⟨⟨0, 0, 0⟩, ⟨0, 0, 0, -1⟩, ⟨-1, 1, 1⟩, .TRS⟩)).scale.x
        = 1 ∧
    ¬(vec3equalsTol
        (mat4decompose (mat4compose ⟨⟨0, 0, 0⟩, ⟨0, 0, 0, -1⟩, ⟨-1, 1, 1⟩, .TRS⟩)).translation
        ⟨0, 0, 0⟩ (1 / 1000) ∧
      quatEqualsTol
        (mat4decompose (mat4compose ⟨⟨0, 0, 0⟩, ⟨0, 0, 0, -1⟩, ⟨-1, 1, 1⟩, .TRS⟩)).rotation
        ⟨0, 0, 0, -1⟩ (1 / 1000) ∧
      vec3equalsTol
        (mat4decompose (mat4compose ⟨⟨0, 0, 0⟩, ⟨0, 0, 0, -1⟩, ⟨-1, 1, 1⟩, .TRS⟩)).scale
        ⟨-1, 1, 1⟩ (1 / 1000)) := by
  have hrot : (mat4decompose (mat4compose ⟨⟨0, 0, 0⟩, ⟨0, 0, 0, -1⟩, ⟨-1, 1, 1⟩, .TRS⟩)).rotation
      = ⟨0, 0, 0, 1⟩ := by
    show mat4getRotation _ = _
    unfold mat4getRotation
    rw [c1ce_compose_eq, c1ce_setScale, c1ce_raw, c1ce_normalize]
  have hsc : (mat4decompose (mat4compose ⟨⟨0, 0, 0⟩, ⟨0, 0, 0, -1⟩, ⟨-1, 1, 1⟩, .TRS⟩)).scale
      = ⟨1, 1, 1⟩ := by
    show mat4getScale _ = _
    rw [c1ce_compose_eq, c1ce_getScale]
  refine ⟨by rw [hrot], by rw [hsc], fun hcl => ?_⟩
  have hw := hcl.2.1.2.2.2
  rw [hrot] at hw
  simp only [isNearlyEqual] at hw
  norm_num at hw

-- ============================ C3: lerp endpoints ===========================

theorem vec3lerp_zero (a b : Vec3) : vec3lerp a b 0 = a := by
  ext <;> simp [vec3lerp, lerpS]

theorem vec3lerp_one (a b : Vec3) : vec3lerp a b 1 = b := by
  ext <;> simp [vec3lerp, lerpS]

theorem sin_arccos_pos (c : ℝ) (h1 : -1 < c) (h2 : c < 1) :
    0 < Real.sin (Real.arccos c) :=
  Real.sin_pos_of_pos_of_lt_pi (Real.arccos_pos.mpr h2)
    (lt_of_le_of_ne (Real.arccos_le_pi c)
      (fun h => absurd (Real.arccos_eq_pi.mp h) (by linarith)))

/-- gl slerp at alpha = 0 returns the first quaternion exactly (both the
trigonometric branch, where sin(omega)/sin(omega) = 1, and the linear
fallback). -/
theorem quatSlerp_zero (a b : Quat) : quatSlerp a b 0 = a := by
  have heps0 : (0 : ℝ) < glEPS := by norm_num [glEPS]
  simp only [quatSlerp]
  split_ifs with hflip heps heps
  · have hsin : 0 < Real.sin (Real.arccos (-(a.x * b.x + a.y * b.y + a.z * b.z + a.w * b.w))) :=
      sin_arccos_pos _ (by linarith) (by linarith)
    ext <;>
      simp only [show ((1 : ℝ) - 0) = 1 by norm_num, one_mul, zero_mul,
        Real.sin_zero, zero_div, div_self hsin.ne', add_zero, mul_zero, mul_one]
  · ext <;>
      simp only [show ((1 : ℝ) - 0) = 1 by norm_num, one_mul, zero_mul,
        add_zero, mul_zero, mul_one]
  · have hge0 : (0 : ℝ) ≤ a.x * b.x + a.y * b.y + a.z * b.z + a.w * b.w := le_of_not_lt hflip
    have hsin : 0 < Real.sin (Real.arccos (a.x * b.x + a.y * b.y + a.z * b.z + a.w * b.w)) :=
      sin_arccos_pos _ (by linarith) (by linarith)
    ext <;>
      simp only [show ((1 : ℝ) - 0) = 1 by norm_num, one_mul, zero_mul,
        Real.sin_zero, zero_div, div_self hsin.ne', add_zero, mul_zero, mul_one]
  · ext <;>
      simp only [show ((1 : ℝ) - 0) = 1 by norm_num, one_mul, zero_mul,
        add_zero, mul_zero, mul_one]

/-- gl slerp at alpha = 1 returns the second quaternion, negated exactly
when the quaternion dot product is negative (the shortest-arc flip). -/
theorem quatSlerp_one (a b : Quat) :
    quatSlerp a b 1 =
      (if a.x * b.x + a.y * b.y + a.z * b.z + a.w * b.w < 0 then Quat.neg b else b) := by
  have heps0 : (0 : ℝ) < glEPS := by norm_num [glEPS]
  simp only [quatSlerp]
  split_ifs with hflip heps heps
  · have hsin : 0 < Real.sin (Real.arccos (-(a.x * b.x + a.y * b.y + a.z * b.z + a.w * b.w))) :=
      sin_arccos_pos _ (by linarith) (by linarith)
    ext <;>
      simp only [show ((1 : ℝ) - 1) = 0 by norm_num, one_mul, zero_mul,
        Real.sin_zero, zero_div, div_self hsin.ne', zero_add, mul_zero, mul_one,
        Quat.neg]
  · ext <;>
      simp only [show ((1 : ℝ) - 1) = 0 by norm_num, one_mul, zero_mul,
        zero_add, mul_zero, mul_one, Quat.neg]
  · have hge0 : (0 : ℝ) ≤ a.x * b.x + a.y * b.y + a.z * b.z + a.w * b.w := le_of_not_lt hflip
    have hsin : 0 < Real.sin (Real.arccos (a.x * b.x + a.y * b.y + a.z * b.z + a.w * b.w)) :=
      sin_arccos_pos _ (by linarith) (by linarith)
    ext <;>
      simp only [show ((1 : ℝ) - 1) = 0 by norm_num, one_mul, zero_mul,
        Real.sin_zero, zero_div, div_self hsin.ne', zero_add, mul_zero, mul_one]
  · ext <;>
      simp only [show ((1 : ℝ) - 1) = 0 by norm_num, one_mul, zero_mul,
        zero_add, mul_zero, mul_one]

/-- C3: for matrices A and B that are decomposable affine transforms (TRS
compositions with unit rotation and strictly positive scale, the proper
non-reflecting case of the spec's validity condition), mat4.lerp(A, B, 0) is
judged equal to A and mat4.lerp(A, B, 1) is judged equal to B by
mat4.transformEquals at the default tolerance 0.001; indeed both endpoint
matrices are reproduced exactly. -/
theorem c3_lerp_endpoints (tA : Vec3) (rA : Quat) (sA : Vec3)
    (tB : Vec3) (rB : Quat) (sB : Vec3)
    (hqA : rA.x ^ 2 + rA.y ^ 2 + rA.z ^ 2 + rA.w ^ 2 = 1)
    (hxA : 0 < sA.x) (hyA : 0 < sA.y) (hzA : 0 < sA.z)
    (hqB : rB.x ^ 2 + rB.y ^ 2 + rB.z ^ 2 + rB.w ^ 2 = 1)
    (hxB : 0 < sB.x) (hyB : 0 < sB.y) (hzB : 0 < sB.z) :
    mat4transformEquals
        (mat4lerp (mat4compose ⟨tA, rA, sA, .TRS⟩) (mat4compose ⟨tB, rB, sB, .TRS⟩) 0)
        (mat4compose ⟨tA, rA, sA, .TRS⟩) (1 / 1000) ∧
    mat4transformEquals
        (mat4lerp (mat4compose ⟨tA, rA, sA, .TRS⟩) (mat4compose ⟨tB, rB, sB, .TRS⟩) 1)
        (mat4compose ⟨tB, rB, sB, .TRS⟩) (1 / 1000) := by
  have hdA := mat4decompose_composeTRS tA rA sA hqA hxA hyA hzA
  have hdB := mat4decompose_composeTRS tB rB sB hqB hxB hyB hzB
  constructor
  · have hl : mat4lerp (mat4compose ⟨tA, rA, sA, .TRS⟩) (mat4compose ⟨tB, rB, sB, .TRS⟩) 0
        = mat4compose ⟨tA, rA, sA, .TRS⟩ := by
      simp only [mat4lerp, hdA, hdB, vec3lerp_zero, quatSlerp_zero]
      exact mat4compose_TRS_canonQ tA rA sA
    rw [hl]
    exact mat4transformEquals_refl _ _ (by norm_num)
  · have hl : mat4lerp (mat4compose ⟨tA, rA, sA, .TRS⟩) (mat4compose ⟨tB, rB, sB, .TRS⟩) 1
        = mat4compose ⟨tB, rB, sB, .TRS⟩ := by
      simp only [mat4lerp, hdA, hdB, vec3lerp_one, quatSlerp_one]
      split_ifs
      · rw [mat4compose_TRS_negQ tB (canonQ rB) sB]
        exact mat4compose_TRS_canonQ tB rB sB
      · exact mat4compose_TRS_canonQ tB rB sB
    rw [hl]
    exact mat4transformEquals_refl _ _ (by norm_num)

/-- Witness for C3 at A the identity transform and B the transform with
translation (1,2,3), the unit quaternion (3/5,0,0,4/5) and scale (2,2,2). -/
theorem c3_lerp_endpoints_witness :
    mat4transformEquals
        (mat4lerp (mat4compose ⟨⟨0, 0, 0⟩, ⟨0, 0, 0, 1⟩, ⟨1, 1, 1⟩, .TRS⟩)
          (mat4compose ⟨⟨1, 2, 3⟩, ⟨3 / 5, 0, 0, 4 / 5⟩, ⟨2, 2, 2⟩, .TRS⟩) 0)
        (mat4compose ⟨⟨0, 0, 0⟩, ⟨0, 0, 0, 1⟩, ⟨1, 1, 1⟩, .TRS⟩) (1 / 1000) ∧
    mat4transformEquals
        (mat4lerp (mat4compose ⟨⟨0, 0, 0⟩, ⟨0, 0, 0, 1⟩, ⟨1, 1, 1⟩, .TRS⟩)
          (mat4compose ⟨⟨1, 2, 3⟩, ⟨3 / 5, 0, 0, 4 / 5⟩, ⟨2, 2, 2⟩, .TRS⟩) 1)
        (mat4compose ⟨⟨1, 2, 3⟩, ⟨3 / 5, 0, 0, 4 / 5⟩, ⟨2, 2, 2⟩, .TRS⟩) (1 / 1000) :=
  c3_lerp_endpoints ⟨0, 0, 0⟩ ⟨0, 0, 0, 1⟩ ⟨1, 1, 1⟩ ⟨1, 2, 3⟩ ⟨3 / 5, 0, 0, 4 / 5⟩
    ⟨2, 2, 2⟩ (by norm_num) (by norm_num) (by norm_num) (by norm_num)
    (by norm_num) (by norm_num) (by norm_num) (by norm_num)

-- ===================== C5: TRS vs SRT concrete case ========================

theorem c5_A_m2 :
    (mat4compose ⟨⟨1, 0, 0⟩, ⟨0, Real.sqrt 2 / 2, 0, Real.sqrt 2 / 2⟩, ⟨2, 1, 1⟩,
      .TRS⟩).m2 = -2 := by
  have h2 : Real.sqrt 2 * Real.sqrt 2 = 2 := Real.mul_self_sqrt (by norm_num)
  simp only [mat4compose_TRS_eq]
  linear_combination (-1) * h2

theorem c5_B_m2 :
    (mat4compose ⟨⟨1, 0, 0⟩, ⟨0, Real.sqrt 2 / 2, 0, Real.sqrt 2 / 2⟩, ⟨2, 1, 1⟩,
      .SRT⟩).m2 = -1 := by
  have h2 : Real.sqrt 2 * Real.sqrt 2 = 2 := Real.mul_self_sqrt (by norm_num)
  simp only [mat4compose, glTranslate, mat4rotate, glMul, glFromScaling, glFromQuat]
  linear_combination (-1 / 2) * h2

theorem c5_A_m12 :
    (mat4compose ⟨⟨1, 0, 0⟩, ⟨0, Real.sqrt 2 / 2, 0, Real.sqrt 2 / 2⟩, ⟨2, 1, 1⟩,
      .TRS⟩).m12 = 1 := by
  simp only [mat4compose_TRS_eq]

theorem c5_B_m12 :
    (mat4compose ⟨⟨1, 0, 0⟩, ⟨0, Real.sqrt 2 / 2, 0, Real.sqrt 2 / 2⟩, ⟨2, 1, 1⟩,
      .SRT⟩).m12 = 0 := by
  have h2 : Real.sqrt 2 * Real.sqrt 2 = 2 := Real.mul_self_sqrt (by norm_num)
  simp only [mat4compose, glTranslate, mat4rotate, glMul, glFromScaling, glFromQuat]
  linear_combination (-1) * h2

/-- C5: at T = (1,0,0), R the unit quaternion of the 90 degree rotation
about Y (0, sqrt2/2, 0, sqrt2/2), S = (2,1,1), the matrices composed with
order TRS and order SRT are judged unequal by mat4.equals and unequal by
mat4.transformEquals, both at the default tolerance 0.001: coefficient 2
differs by 1 and the decomposed translations differ by 1 in x. -/
theorem c5_trs_srt_not_equal :
    ¬mat4equalsTol
        (mat4compose ⟨⟨1, 0, 0⟩, ⟨0, Real.sqrt 2 / 2, 0, Real.sqrt 2 / 2⟩, ⟨2, 1, 1⟩, .TRS⟩)
        (mat4compose ⟨⟨1, 0, 0⟩, ⟨0, Real.sqrt 2 / 2, 0, Real.sqrt 2 / 2⟩, ⟨2, 1, 1⟩, .SRT⟩)
        (1 / 1000) ∧
    ¬mat4transformEquals
        (mat4compose ⟨⟨1, 0, 0⟩, ⟨0, Real.sqrt 2 / 2, 0, Real.sqrt 2 / 2⟩, ⟨2, 1, 1⟩, .TRS⟩)
        (mat4compose ⟨⟨1, 0, 0⟩, ⟨0, Real.sqrt 2 / 2, 0, Real.sqrt 2 / 2⟩, ⟨2, 1, 1⟩, .SRT⟩)
        (1 / 1000) := by
  constructor
  · intro h
    have h3 := h.2.2.1
    simp only [isNearlyEqual, c5_A_m2, c5_B_m2] at h3
    norm_num at h3
  · intro h
    have h1 := h.1.1
    simp only [mat4decompose, mat4getTranslation, isNearlyEqual,
      c5_A_m12, c5_B_m12] at h1
    norm_num at h1

-- ======================= C6: viewProjection3d case =========================

theorem c6_fwd_eq : vec3normalize (vec3rotate vec3forward ⟨0, 0, 0, 1⟩) = ⟨0, 0, 1⟩ := by
  have h : vec3rotate vec3forward ⟨0, 0, 0, 1⟩ = ⟨0, 0, 1⟩ := by
    ext <;> simp [vec3rotate, vec3forward]
  rw [h]
  ext <;> norm_num [vec3normalize]

theorem c6_up_eq :
    vec3normalize (vec3negate (vec3rotate vec3up ⟨0, 0, 0, 1⟩)) = ⟨0, -1, 0⟩ := by
  have h : vec3negate (vec3rotate vec3up ⟨0, 0, 0, 1⟩) = ⟨0, -1, 0⟩ := by
    ext <;> simp [vec3rotate, vec3negate, vec3up]
  rw [h]
  ext <;> norm_num [vec3normalize]

theorem c6_view_eq :
    glLookAt ⟨0, 0, 0⟩ (vec3add ⟨0, 0, 0⟩ ⟨0, 0, 1⟩) ⟨0, -1, 0⟩ =
      ⟨1, 0, 0, 0, 0, -1, 0, 0, 0, 0, -1, 0, 0, 0, 0, 1⟩ := by
  have hc : vec3add (⟨0, 0, 0⟩ : Vec3) ⟨0, 0, 1⟩ = ⟨0, 0, 1⟩ := by
    ext <;> simp [vec3add]
  rw [hc]
  ext <;> norm_num [glLookAt, glEPS]

theorem c6_proj_eq :
    mat4perspectiveProjection 90 1 (1 / 10) 100 =
      ⟨1, 0, 0, 0, 0, 1, 0, 0, 0, 0, -(1001 / 999), -1, 0, 0, -(200 / 999), 0⟩ := by
  have htan : Real.tan (90 * toRadC / 2) = 1 := by
    rw [show (90 : ℝ) * toRadC / 2 = Real.pi / 4 by rw [toRadC]; ring]
    exact Real.tan_pi_div_four
  ext <;> norm_num [mat4perspectiveProjection, glPerspective, htan]

theorem c6_vp_eq :
    mat4viewProjection3d ⟨⟨0, 0, 0⟩, ⟨0, 0, 0, 1⟩, 90, 1, 1 / 10, 100⟩ =
      ⟨1, 0, 0, 0, 0, -1, 0, 0, 0, 0, 1001 / 999, 1, 0, 0, -(200 / 999), 0⟩ := by
  simp only [mat4viewProjection3d]
  rw [c6_fwd_eq, c6_up_eq, c6_view_eq, c6_proj_eq]
  ext <;> norm_num [glMul]

/-- C6 counterexample: for the camera at the origin with identity rotation,
fov 90, aspect 1, near 0.1 and far 100, the viewProjection3d matrix maps
the point (0,0,-5) to normalized device z = 1041/999 > 1: under the
library's forward = (0,0,1) convention the point lies behind the camera and
falls outside the canonical view volume, refuting the claim as stated. -/
theorem c6_counterexample :
    ¬insideViewVolumePosDepth
      (vec3transformM4 ⟨0, 0, -5⟩
        (mat4viewProjection3d ⟨⟨0, 0, 0⟩, ⟨0, 0, 0, 1⟩, 90, 1, 1 / 10, 100⟩)) := by
  rw [c6_vp_eq]
  intro h
  have hz := h.2.2.1
  norm_num [vec3transformM4, abs_le] at hz

/-- C6 (amended): the same camera maps the point (0,0,5), which is five
units in front of the camera under the library's forward = (0,0,1)
convention, to a point with positive depth inside the canonical view volume
(normalized device coordinates (0, 0, 961/999)). -/
theorem c6_front_point_inside :
    insideViewVolumePosDepth
      (vec3transformM4 ⟨0, 0, 5⟩
        (mat4viewProjection3d ⟨⟨0, 0, 0⟩, ⟨0, 0, 0, 1⟩, 90, 1, 1 / 10, 100⟩)) := by
  rw [c6_vp_eq]
  refine ⟨?_, ?_, ?_, ?_⟩ <;>
    norm_num [vec3transformM4, insideViewVolumePosDepth, abs_le]
